import Mathlib

/-!
Shallow embedding of src/nala/nala.py (the nala CLI front-end over the apt
engine) and proofs about the claims of its specification.

The engine (python-apt) and the nala helper modules that are not part of the
analysed source (nala.cache, nala.install, nala.utils, nala.error, nala.show,
nala.search) are modelled as oracles: structures of functions standing for the
answers those externals can give.  Every command of nala.py is translated into
a Lean function returning an `Outcome` (how the Python process ends) and a
trace of `Event`s (the externally visible engine/filesystem/print actions, in
program order).  Python semantics used in the translation:

  * `sys.exit(string)` prints the string to stderr and exits with code 1;
    it is modelled as `Outcome.exitErr msg`.
  * `sys.exit()` exits with code 0: `Outcome.exitOk`.
  * `sys.exit(1)` is `Outcome.exitCode 1`.
  * `ctx.fail(msg)` (typer/click usage error) is `Outcome.usageFail msg`.
  * an uncaught `apt_pkg.Error` is `Outcome.raised`.
-/

namespace NalaSpec

/-- The filesystem constants of nala.constants that the clean command touches. -/
inductive FsPath
  | ARCHIVE_DIR
  | PARTIAL_DIR
  | LISTS_DIR
  | LISTS_PARTIAL_DIR
  | PKGCACHE
  | SRCPKGCACHE
  | NALA_SOURCES
deriving DecidableEq, Repr

/-- User-facing messages, abstracted from the translated strings of nala.py. -/
inductive Msg
  | missingSudo
  | heldBrokenPackages
  | missingPackagesToInstall
  | regexCompileFailed (emsg : String) (pos : Nat)
  | regexNotFound (pattern : String)
  | nothingToList
  | packageListsCleaned
  | nalaSourcesCleaned
  | cacheCleaned
  | fixingBroken
deriving DecidableEq, Repr

/-- Externally visible actions of one nala invocation, in program order.
`iterRemove p` is nala.utils.iter_remove (removes the files under path `p`);
`unlink p` is Path.unlink(missing_ok=True) on `p` (a missing file is
tolerated).  The engine calls (setupCache, checkState, upgradeCall, ...)
stand for the corresponding nala.install / python-apt operations. -/
inductive Event
  | sudoCheck
  | setupCache
  | checkState
  | argCheck
  | iterRemove (p : FsPath)
  | unlink (p : FsPath)
  | upgradeCall (i : Nat)
  | offerFallback (i : Nat)
  | cacheClear
  | checkTermAsk
  | autoRemove
  | getChanges
  | fixBroken
  | globFilter
  | virtualFilter
  | checkBrokenCall
  | splitLocal
  | installLocal
  | packageManagerOn (names : List String)
  | scanPkg (n : String)
  | showPkg (n : String)
  | pkgNotFound (n : String)
  | eprintNotFound (n : String)
  | brokenErrorReport
  | unmarkedErrorReport
  | additionalNotice
  | printUpgradable
  | keptBackPrint (n : String)
  | printMsg (m : Msg)
deriving DecidableEq, Repr

/-- How the Python process ends (see the header comment for the mapping). -/
inductive Outcome
  | ok
  | exitOk
  | exitErr (m : Msg)
  | exitCode (n : Nat)
  | usageFail (m : Msg)
  | raised
  | outOfFuel
deriving DecidableEq, Repr

/-- A thin view of an apt.package.Package, holding exactly the fields nala.py
reads.  The marked fields denote the package state after the engine mark
operations (package_manager) have run. -/
structure Pkg where
  name : String
  shortname : String
  installed : Bool
  is_installed : Bool
  is_upgradable : Bool
  marked_install : Bool
  marked_upgrade : Bool
  marked_downgrade : Bool
  architecture : String
deriving DecidableEq, Repr

/-- The engine cache handle (nala.cache.Cache), modelled as the list of its
packages together with oracle functions for the name-resolution primitives
nala.py calls on it (glob_filter, virtual_filter, is_virtual_package). -/
structure Cache where
  pkgs : List Pkg
  glob_filter : List String → List String
  virtual_filter : List String → List String
  is_virtual_package : String → Bool

/-- Python `name in cache`: some package of the cache has that name. -/
def Cache.contains (c : Cache) (n : String) : Bool :=
  c.pkgs.any (fun p => p.name == n)

/-- Python `cache[name]`: the first package with that name, if any. -/
def Cache.lookup (c : Cache) (n : String) : Option Pkg :=
  c.pkgs.find? (fun p => p.name == n)

/-- The name expansion nala.py performs before dispatch:
`cache.glob_filter` then `cache.virtual_filter` (nala.py lines 233-234,
287-288, 365-366). -/
def expand_names (c : Cache) (names : List String) : List String :=
  c.virtual_filter (c.glob_filter names)

/-- `pkg.marked_upgrade or pkg.marked_install or pkg.marked_downgrade`
(nala.py line 247). -/
def Pkg.okMarked (p : Pkg) : Bool :=
  p.marked_upgrade || p.marked_install || p.marked_downgrade

/-- Whether the trace removes path `p` (by iter_remove or unlink). -/
def removesPath (t : List Event) (p : FsPath) : Bool :=
  t.any fun e =>
    match e with
    | Event.iterRemove q => decide (q = p)
    | Event.unlink q => decide (q = p)
    | _ => false

/-- The clean command (nala.py lines 474-502).  `rootOk` is the answer of
sudo_check, modelled from the spec: a missing-sudo input-validation error is
reported immediately with a non-zero exit (nala.utils.sudo_check is not part
of the analysed source). -/
def clean (rootOk lists fetch : Bool) : Outcome × List Event :=
  if rootOk then
    if lists then
      (Outcome.ok,
        [Event.sudoCheck, Event.iterRemove FsPath.LISTS_DIR,
         Event.iterRemove FsPath.LISTS_PARTIAL_DIR,
         Event.printMsg Msg.packageListsCleaned])
    else if fetch then
      (Outcome.ok,
        [Event.sudoCheck, Event.unlink FsPath.NALA_SOURCES,
         Event.printMsg Msg.nalaSourcesCleaned])
    else
      (Outcome.ok,
        [Event.sudoCheck, Event.iterRemove FsPath.ARCHIVE_DIR,
         Event.iterRemove FsPath.PARTIAL_DIR,
         Event.iterRemove FsPath.LISTS_PARTIAL_DIR,
         Event.unlink FsPath.PKGCACHE, Event.unlink FsPath.SRCPKGCACHE,
         Event.printMsg Msg.cacheCleaned])
  else (Outcome.exitErr Msg.missingSudo, [Event.sudoCheck])

/-- Claim C3: for every invocation of the clean command with the --lists flag
set, only the list-cache paths (the lists directory and the partial-lists
directory) are removed; the archive cache directory, the partial archive
directory, the package cache files and the nala sources file are left
unchanged. -/
theorem clean_lists_frame (fetch : Bool) :
    removesPath (clean true true fetch).2 FsPath.LISTS_DIR = true ∧
    removesPath (clean true true fetch).2 FsPath.LISTS_PARTIAL_DIR = true ∧
    removesPath (clean true true fetch).2 FsPath.ARCHIVE_DIR = false ∧
    removesPath (clean true true fetch).2 FsPath.PARTIAL_DIR = false ∧
    removesPath (clean true true fetch).2 FsPath.PKGCACHE = false ∧
    removesPath (clean true true fetch).2 FsPath.SRCPKGCACHE = false ∧
    removesPath (clean true true fetch).2 FsPath.NALA_SOURCES = false := by
  cases fetch <;> decide

/-- Claim C9: clean with --fetch set and --lists unset removes only the nala
sources file (unlink with a missing file tolerated), leaving the archive,
partial and lists directories and the package cache files unchanged; and when
both --lists and --fetch are set, the --lists branch takes precedence and the
sources file is not removed. -/
theorem clean_fetch_frame :
    (removesPath (clean true false true).2 FsPath.NALA_SOURCES = true ∧
     removesPath (clean true false true).2 FsPath.ARCHIVE_DIR = false ∧
     removesPath (clean true false true).2 FsPath.PARTIAL_DIR = false ∧
     removesPath (clean true false true).2 FsPath.LISTS_DIR = false ∧
     removesPath (clean true false true).2 FsPath.LISTS_PARTIAL_DIR = false ∧
     removesPath (clean true false true).2 FsPath.PKGCACHE = false ∧
     removesPath (clean true false true).2 FsPath.SRCPKGCACHE = false) ∧
    (removesPath (clean true true true).2 FsPath.NALA_SOURCES = false ∧
     removesPath (clean true true true).2 FsPath.LISTS_DIR = true ∧
     removesPath (clean true true true).2 FsPath.LISTS_PARTIAL_DIR = true) := by
  decide

/-! ## The upgrade command (nala.py lines 124-191) -/

/-- Oracle answers for one upgrade invocation.  `raises i` tells whether the
i-th `cache.upgrade` call raises apt_pkg.Error; `askYes i` is the answer the
user gives at the i-th offer of the exclude fallback (nala.utils.ask);
`fixExcluded i` is the exclusion list nala.install.fix_excluded computes at
that offer; `keptBack i` tells whether, after a successful i-th upgrade call,
some previously upgradable package is no longer upgradable (kept back). -/
structure UpgradeEnv where
  raises : Nat → Bool
  askYes : Nat → Bool
  fixExcluded : Nat → List String
  keptBack : Nat → Bool

/-- The inner `_upgrade` closure of the upgrade command (nala.py lines
153-189), with a fuel bound on the recursion depth (the Python recursion is
unbounded).  `i` numbers the `cache.upgrade` calls of the invocation; `nested`
tells whether a nested cache was passed (in which case setup_cache is not
called again).  On an engine error with a non-empty exclude list the fallback
is offered (`offerFallback`); on a yes answer the cache is cleared and
`_upgrade` recurses with the new exclusions, then calls `sys.exit()`; on a no
answer the command exits with the held-broken-packages error; with an empty
exclude list the error propagates (`Outcome.raised`). -/
def upgradeLoop (env : UpgradeEnv) : Nat → List String → Nat → Bool → Outcome × List Event
  | 0, _, _, _ => (Outcome.outOfFuel, [])
  | fuel + 1, exclude, i, nested =>
    let ev0 : List Event :=
      (if nested then [] else [Event.setupCache]) ++
        [Event.checkState, Event.upgradeCall i]
    if env.raises i then
      if exclude.isEmpty then (Outcome.raised, ev0)
      else
        let evOffer := ev0 ++ [Event.offerFallback i]
        if env.askYes i then
          let r := upgradeLoop env fuel (env.fixExcluded i) (i + 1) true
          match r.1 with
          | Outcome.ok => (Outcome.exitOk, evOffer ++ [Event.cacheClear] ++ r.2)
          | o => (o, evOffer ++ [Event.cacheClear] ++ r.2)
        else (Outcome.exitErr Msg.heldBrokenPackages, evOffer)
    else
      if env.keptBack i then
        let ev1 := ev0 ++ [Event.checkTermAsk, Event.upgradeCall (i + 1)]
        if env.raises (i + 1) then (Outcome.raised, ev1)
        else (Outcome.ok, ev1 ++ [Event.autoRemove, Event.getChanges])
      else (Outcome.ok, ev0 ++ [Event.autoRemove, Event.getChanges])

/-- The upgrade command (nala.py lines 127-191): sudo_check, then the
`_upgrade` closure on the supplied exclude list.  `rootOk` is the sudo_check
oracle (modelled from the spec, as for `clean`). -/
def upgrade (rootOk : Bool) (env : UpgradeEnv) (fuel : Nat) (exclude : List String) :
    Outcome × List Event :=
  if rootOk then
    let r := upgradeLoop env fuel exclude 0 false
    (r.1, Event.sudoCheck :: r.2)
  else (Outcome.exitErr Msg.missingSudo, [Event.sudoCheck])

/-- How many times the exclude fallback was offered in a trace. -/
def countOffers (t : List Event) : Nat :=
  (t.filter fun e =>
    match e with
    | Event.offerFallback _ => true
    | _ => false).length

theorem countOffers_append (s t : List Event) :
    countOffers (s ++ t) = countOffers s + countOffers t := by
  simp [countOffers, List.filter_append]

/-- Upgrade oracle under which the engine raises on the first two upgrade
computations and the user accepts the first offer and declines the second. -/
def c1env : UpgradeEnv where
  raises := fun i => decide (i < 2)
  askYes := fun i => decide (i = 0)
  fixExcluded := fun _ => ["a"]
  keptBack := fun _ => false

/-- Counterexample to claim C1 as stated: an upgrade invocation with the
non-empty exclude list ["a"] in which the engine's upgrade computation raises
on both the first and the retried attempt.  The fallback is offered twice in
the same invocation before the command aborts with the held-broken-packages
error, refuting that it is never offered a second time. -/
theorem upgrade_fallback_offered_twice :
    (["a"] : List String) ≠ [] ∧
    countOffers (upgrade true c1env 5 ["a"]).2 = 2 ∧
    (upgrade true c1env 5 ["a"]).1 = Outcome.exitErr Msg.heldBrokenPackages := by
  decide

/-- Claim C1 as amended: with a non-empty --exclude list, if the engine's
upgrade computation raises on the first attempt, the fallback is offered at
least once; it is offered once per failed attempt, so if the user declines the
first offer the command aborts (held-broken-packages error) after exactly one
offer — but if the user accepts and the retried computation raises again the
fallback can be offered again in the same invocation. -/
theorem upgrade_fallback_amended (env : UpgradeEnv) (fuel : Nat)
    (exclude : List String) (hex : exclude ≠ [])
    (hr : env.raises 0 = true) :
    1 ≤ countOffers (upgrade true env (fuel + 1) exclude).2 ∧
    (env.askYes 0 = false →
      countOffers (upgrade true env (fuel + 1) exclude).2 = 1 ∧
      (upgrade true env (fuel + 1) exclude).1 =
        Outcome.exitErr Msg.heldBrokenPackages) := by
  have hne : exclude.isEmpty = false := by
    cases exclude with
    | nil => exact absurd rfl hex
    | cons a t => rfl
  simp only [upgrade, if_true, upgradeLoop, hr, hne, if_false, Bool.false_eq_true,
    ite_false, ite_true]
  cases hask : env.askYes 0 with
  | false =>
    simp only [Bool.false_eq_true, ite_false]
    exact ⟨by simp [countOffers], fun _ => ⟨by simp [countOffers], by trivial⟩⟩
  | true =>
    simp only [ite_true]
    refine ⟨?_, fun hcontr => absurd hcontr (by simp)⟩
    cases hm : (upgradeLoop env fuel (env.fixExcluded 0) (0 + 1) true).1 <;>
      simp [countOffers, List.filter_append]

/-- Upgrade oracle where the engine raises on every attempt and the user
declines the offer. -/
def c1wenv : UpgradeEnv where
  raises := fun _ => true
  askYes := fun _ => false
  fixExcluded := fun _ => []
  keptBack := fun _ => false

theorem upgrade_fallback_amended_witness :
    1 ≤ countOffers (upgrade true c1wenv 1 ["a"]).2 ∧
    countOffers (upgrade true c1wenv 1 ["a"]).2 = 1 ∧
    (upgrade true c1wenv 1 ["a"]).1 = Outcome.exitErr Msg.heldBrokenPackages :=
  ⟨(upgrade_fallback_amended c1wenv 0 ["a"] (by decide) rfl).1,
   (upgrade_fallback_amended c1wenv 0 ["a"] (by decide) rfl).2 rfl⟩

/-! ## The install command (nala.py lines 197-254) and _fix_broken (335-350) -/

/-- Oracle answers for one install invocation.  `rootOk` is sudo_check;
`fix_broken` is the arguments.fix_broken option; `arg_check` is
nala.utils.arg_check (validates and returns the argument names); `not_exist`
is the list of supplied local .deb files split_local found missing; `broken`
is the broken-package component check_broken reports and `ver_failed` its
version-failure flag; `pmOk` is the boolean result of
nala.install.package_manager.  check_broken itself is modelled from the spec:
check_broken (nala.install) validates that each requested name exists in the
cache and reports the names absent from the cache as not found. -/
structure InstallEnv where
  rootOk : Bool
  fix_broken : Bool
  arg_check : List String → List String
  not_exist : List String
  broken : List String
  ver_failed : Bool
  pmOk : Bool

/-- The `_install` body after sudo_check (nala.py lines 222-254).  With no
package names: the fix-broken flow (`_fix_broken`, lines 335-350, with no
nested cache) when arguments.fix_broken is set, otherwise ctx.fail with the
missing-packages error.  Otherwise: arg_check, open the cache, split local
debs, expand the names with glob_filter then virtual_filter, run check_broken
(modelled from the spec, see `InstallEnv`); on any not-found name or version
failure, pkg_error with terminate=True — modelled from the spec:
pkg_error (nala.error) reports each not-found name and, on terminate, exits
with code 1 (spec: exit code 1 on user-reported failure, name not found).
Then package_manager runs on the expanded names; if it fails or some requested
package is not marked upgrade/install/downgrade, broken_error is consulted —
modelled from the spec: broken_error (nala.error) surfaces engine-reported
broken packages as formatted messages and aborts (exit 1) when there are any,
and makes no report otherwise; with no broken packages, unmarked_error —
modelled from the spec: surfaced as a user message and the command aborts
(exit 1) instead of proceeding.  Otherwise auto_remover and get_changes. -/
def install_body (env : InstallEnv) (cache : Cache) (pkg_names : List String) :
    Outcome × List Event :=
  if pkg_names.isEmpty then
    if env.fix_broken then
      (Outcome.ok,
        [Event.setupCache, Event.printMsg Msg.fixingBroken, Event.fixBroken,
         Event.checkState, Event.getChanges])
    else (Outcome.usageFail Msg.missingPackagesToInstall, [])
  else
    let names := expand_names cache (env.arg_check pkg_names)
    let ev0 : List Event :=
      [Event.argCheck, Event.setupCache, Event.checkState, Event.splitLocal,
       Event.installLocal, Event.globFilter, Event.virtualFilter,
       Event.checkBrokenCall]
    let not_found :=
      names.filter (fun n => !(cache.contains n)) ++ env.not_exist
    if !not_found.isEmpty || env.ver_failed then
      (Outcome.exitCode 1, ev0 ++ not_found.map Event.eprintNotFound)
    else
      let pkgs := names.filterMap cache.lookup
      let ev1 := ev0 ++ [Event.packageManagerOn names]
      if !env.pmOk || !(pkgs.all Pkg.okMarked) then
        if env.broken.isEmpty then
          (Outcome.exitCode 1, ev1 ++ [Event.unmarkedErrorReport])
        else (Outcome.exitCode 1, ev1 ++ [Event.brokenErrorReport])
      else (Outcome.ok, ev1 ++ [Event.autoRemove, Event.getChanges])

/-- The install command / `_install` (nala.py lines 220-254): sudo_check (a
missing-sudo error exits immediately, modelled from the spec), then the body. -/
def install (env : InstallEnv) (cache : Cache) (pkg_names : List String) :
    Outcome × List Event :=
  if env.rootOk then
    let r := install_body env cache pkg_names
    (r.1, Event.sudoCheck :: r.2)
  else (Outcome.exitErr Msg.missingSudo, [Event.sudoCheck])

/-! ## The show command (nala.py lines 356-381) -/

/-- Oracle for show: `records n` is the number of additional records
nala.show.show_main reports for a shown package `n`. -/
structure ShowEnv where
  records : String → Nat

/-- The show command (nala.py lines 356-381): open the cache, expand the names
with glob_filter then virtual_filter, then for each name either show the
package or record it as not found — pkg_not_found is modelled from the spec:
pkg_not_found (nala.show) appends a not-found error message naming that
package.  When any name was not found, each recorded error is printed to
stderr and the process exits with code 1. -/
def show_cmd (env : ShowEnv) (cache : Cache) (pkg_names : List String)
    (all_versions : Bool) : Outcome × List Event :=
  let names := expand_names cache pkg_names
  let main := names.map fun n =>
    if cache.contains n then Event.showPkg n else Event.pkgNotFound n
  let additional :=
    (names.filter (fun n => cache.contains n)).foldl
      (fun acc n => acc + env.records n) 0
  let not_found := names.filter (fun n => !(cache.contains n))
  let ev0 :=
    [Event.setupCache, Event.globFilter, Event.virtualFilter] ++ main ++
      (if additional ≠ 0 ∧ all_versions = false then [Event.additionalNotice]
       else [])
  if not_found.isEmpty then (Outcome.ok, ev0)
  else (Outcome.exitCode 1, ev0 ++ not_found.map Event.eprintNotFound)

/-! ## The remove/purge command (nala.py lines 257-308) -/

/-- Oracle answers for one remove/purge invocation (see `InstallEnv` for the
shared fields; arg_check's return value is discarded here, as in the source). -/
structure RemoveEnv where
  rootOk : Bool
  purge_cmd : Bool
  broken : List String
  ver_failed : Bool
  pmOk : Bool

/-- The `_remove` body after sudo_check (nala.py lines 282-308): arg_check
(result discarded), open the cache, expand the names with glob_filter then
virtual_filter, check_broken with remove/purge (modelled from the spec as for
install); on not-found names or version failures, pkg_error without terminate
— modelled from the spec: it reports each not-found name.  Then
package_manager on the expanded names; if it fails, broken_error (modelled
from the spec: aborts with exit 1 when the engine reported broken packages,
makes no report otherwise); then auto_remover and get_changes. -/
def remove_body (env : RemoveEnv) (cache : Cache) (pkg_names : List String) :
    Outcome × List Event :=
  let names := expand_names cache pkg_names
  let not_found := names.filter (fun n => !(cache.contains n))
  let ev0 : List Event :=
    [Event.argCheck, Event.setupCache, Event.checkState, Event.globFilter,
     Event.virtualFilter, Event.checkBrokenCall]
  let ev1 := ev0 ++
    (if !not_found.isEmpty || env.ver_failed then
      not_found.map Event.eprintNotFound
     else [])
  let ev2 := ev1 ++ [Event.packageManagerOn names]
  let tail : Outcome × List Event :=
    if env.pmOk then (Outcome.ok, [Event.autoRemove, Event.getChanges])
    else if env.broken.isEmpty then
      (Outcome.ok, [Event.brokenErrorReport, Event.autoRemove, Event.getChanges])
    else (Outcome.exitCode 1, [Event.brokenErrorReport])
  (tail.1, ev2 ++ tail.2)

/-- The remove/purge command / `_remove` (nala.py lines 260-308): sudo_check,
then the body. -/
def remove (env : RemoveEnv) (cache : Cache) (pkg_names : List String) :
    Outcome × List Event :=
  if env.rootOk then
    let r := remove_body env cache pkg_names
    (r.1, Event.sudoCheck :: r.2)
  else (Outcome.exitErr Msg.missingSudo, [Event.sudoCheck])

/-! ## The update and autoremove/autopurge commands (nala.py 109-121, 311-332) -/

/-- The update command (nala.py lines 112-121): sudo_check, then
setup_cache().print_upgradable(). -/
def update (rootOk : Bool) : Outcome × List Event :=
  if rootOk then
    (Outcome.ok, [Event.sudoCheck, Event.setupCache, Event.printUpgradable])
  else (Outcome.exitErr Msg.missingSudo, [Event.sudoCheck])

/-- The autoremove/autopurge command (nala.py lines 314-332): sudo_check, open
the cache, check_state, auto_remover, get_changes. -/
def autoremove (rootOk _purge_cmd : Bool) : Outcome × List Event :=
  if rootOk then
    (Outcome.ok,
      [Event.sudoCheck, Event.setupCache, Event.checkState, Event.autoRemove,
       Event.getChanges])
  else (Outcome.exitErr Msg.missingSudo, [Event.sudoCheck])

/-! ## The search command (nala.py lines 387-428) -/

/-- The filter flags of the search command. -/
structure SearchArgs where
  installed : Bool
  upgradable : Bool
  virtual : Bool
  all_arches : Bool

/-- Oracle for search: `compiles r` is `some (message, position)` when
re.compile raises re.error on pattern `r` and `none` when it succeeds;
`matchesPkg r p` tells whether nala.search.search_name finds a match of the
compiled pattern `r` in the name or description of package `p` (modelled from
the spec: search searches package names and descriptions); `arches` is
apt_pkg.get_architectures(). -/
structure SearchEnv where
  compiles : String → Option (String × Nat)
  matchesPkg : String → Pkg → Bool
  arches : List String

/-- The rewrite at nala.py lines 403-404: the literal argument "*" becomes the
pattern ".*" before compilation. -/
def searchPattern (regex : String) : String :=
  if regex == "*" then ".*" else regex

/-- The per-package gates of the search loop (nala.py lines 414-421). -/
def search_gate (env : SearchEnv) (args : SearchArgs) (cache : Cache)
    (p : Pkg) : Bool :=
  !(args.installed && !p.installed) &&
  !(args.upgradable && !p.is_upgradable) &&
  !(args.virtual && !(cache.is_virtual_package p.name)) &&
  (args.all_arches || env.arches.contains p.architecture)

/-- The packages the search invocation collects into `found`. -/
def search_found (env : SearchEnv) (cache : Cache) (regex : String)
    (args : SearchArgs) : List Pkg :=
  (cache.pkgs.filter (search_gate env args cache)).filter
    (env.matchesPkg (searchPattern regex))

/-- The search command (nala.py lines 387-428): open the cache, rewrite "*"
to ".*", compile; on re.error, sys.exit with the formatted compile-failure
message (exit code 1) before the package loop runs.  Otherwise scan the
gate-passing packages, and exit with a not-found error when nothing matched. -/
def search_cmd (env : SearchEnv) (cache : Cache) (regex : String)
    (args : SearchArgs) : Outcome × List Event :=
  match env.compiles (searchPattern regex) with
  | some e =>
    (Outcome.exitErr (Msg.regexCompileFailed e.1 e.2), [Event.setupCache])
  | none =>
    let scanned := cache.pkgs.filter (search_gate env args cache)
    let t := Event.setupCache :: scanned.map (fun p => Event.scanPkg p.name)
    if (search_found env cache regex args).isEmpty then
      (Outcome.exitErr (Msg.regexNotFound (searchPattern regex)), t)
    else (Outcome.ok, t)

/-! ## The list command (nala.py lines 431-468) -/

/-- The filter flags of the list command. -/
structure ListArgs where
  installed : Bool
  upgradable : Bool
  virtual : Bool

/-- The per-package gates of `_list_gen` (nala.py lines 454-459). -/
def list_gate (args : ListArgs) (cache : Cache) (p : Pkg) : Bool :=
  !(args.installed && !p.installed) &&
  !(args.upgradable && !p.is_upgradable) &&
  !(args.virtual && !(cache.is_virtual_package p.name))

/-- The packages `_list_gen` yields (nala.py lines 450-465): the gate-passing
packages, restricted — when package names were supplied — to those whose
shortname is among the supplied names (the supplied names, not an expansion
of them). -/
def list_gen (args : ListArgs) (cache : Cache) (pkg_names : List String) :
    List Pkg :=
  cache.pkgs.filter fun p =>
    list_gate args cache p &&
      (pkg_names.isEmpty || pkg_names.contains p.shortname)

/-- The list command (nala.py lines 434-468): no sudo needed; iter_search
over the generator (modelled from the spec: the presentation layer prints
each yielded package and reports whether anything was printed), and an exit
with the nothing-found message when the generator yielded nothing. -/
def list_pkgs (args : ListArgs) (cache : Cache) (pkg_names : List String) :
    Outcome × List Event :=
  let sel := list_gen args cache pkg_names
  if sel.isEmpty then (Outcome.exitErr Msg.nothingToList, [Event.setupCache])
  else (Outcome.ok, Event.setupCache :: sel.map (fun p => Event.scanPkg p.name))

/-- The list dispatch as claim C2 words it: the supplied name list expanded
through glob-pattern expansion and virtual-package resolution before the
subcommand dispatches on the names. -/
def list_gen_spec (args : ListArgs) (cache : Cache) (pkg_names : List String) :
    List Pkg :=
  list_gen args cache (expand_names cache pkg_names)

/-! ## Trace projections used to state the dispatch claims -/

/-- The name list the first package_manager call of a trace dispatched on. -/
def pmNamesOf : List Event → Option (List String)
  | [] => none
  | Event.packageManagerOn ns :: _ => some ns
  | _ :: t => pmNamesOf t

/-- The names of the packages a trace showed (show_main calls), in order. -/
def shownNames : List Event → List String
  | [] => []
  | Event.showPkg n :: t => n :: shownNames t
  | _ :: t => shownNames t

@[simp] theorem pmNamesOf_nil : pmNamesOf [] = none := rfl

@[simp] theorem pmNamesOf_pm (ns : List String) (t : List Event) :
    pmNamesOf (Event.packageManagerOn ns :: t) = some ns := rfl

@[simp] theorem pmNamesOf_sudoCheck (t : List Event) :
    pmNamesOf (Event.sudoCheck :: t) = pmNamesOf t := rfl

@[simp] theorem pmNamesOf_setupCache (t : List Event) :
    pmNamesOf (Event.setupCache :: t) = pmNamesOf t := rfl

@[simp] theorem pmNamesOf_checkState (t : List Event) :
    pmNamesOf (Event.checkState :: t) = pmNamesOf t := rfl

@[simp] theorem pmNamesOf_argCheck (t : List Event) :
    pmNamesOf (Event.argCheck :: t) = pmNamesOf t := rfl

@[simp] theorem pmNamesOf_splitLocal (t : List Event) :
    pmNamesOf (Event.splitLocal :: t) = pmNamesOf t := rfl

@[simp] theorem pmNamesOf_installLocal (t : List Event) :
    pmNamesOf (Event.installLocal :: t) = pmNamesOf t := rfl

@[simp] theorem pmNamesOf_globFilter (t : List Event) :
    pmNamesOf (Event.globFilter :: t) = pmNamesOf t := rfl

@[simp] theorem pmNamesOf_virtualFilter (t : List Event) :
    pmNamesOf (Event.virtualFilter :: t) = pmNamesOf t := rfl

@[simp] theorem pmNamesOf_checkBrokenCall (t : List Event) :
    pmNamesOf (Event.checkBrokenCall :: t) = pmNamesOf t := rfl

@[simp] theorem pmNamesOf_printMsg (m : Msg) (t : List Event) :
    pmNamesOf (Event.printMsg m :: t) = pmNamesOf t := rfl

@[simp] theorem pmNamesOf_fixBroken (t : List Event) :
    pmNamesOf (Event.fixBroken :: t) = pmNamesOf t := rfl

@[simp] theorem pmNamesOf_getChanges (t : List Event) :
    pmNamesOf (Event.getChanges :: t) = pmNamesOf t := rfl

@[simp] theorem pmNamesOf_eprints_append (l : List String) (t : List Event) :
    pmNamesOf (l.map Event.eprintNotFound ++ t) = pmNamesOf t := by
  induction l with
  | nil => rfl
  | cons a l ih => exact ih

@[simp] theorem pmNamesOf_eprints (l : List String) :
    pmNamesOf (l.map Event.eprintNotFound) = none := by
  induction l with
  | nil => rfl
  | cons a l ih => exact ih

@[simp] theorem shownNames_nil : shownNames [] = [] := rfl

@[simp] theorem shownNames_showPkg (n : String) (t : List Event) :
    shownNames (Event.showPkg n :: t) = n :: shownNames t := rfl

@[simp] theorem shownNames_pkgNotFound (n : String) (t : List Event) :
    shownNames (Event.pkgNotFound n :: t) = shownNames t := rfl

@[simp] theorem shownNames_setupCache (t : List Event) :
    shownNames (Event.setupCache :: t) = shownNames t := rfl

@[simp] theorem shownNames_globFilter (t : List Event) :
    shownNames (Event.globFilter :: t) = shownNames t := rfl

@[simp] theorem shownNames_virtualFilter (t : List Event) :
    shownNames (Event.virtualFilter :: t) = shownNames t := rfl

@[simp] theorem shownNames_additionalNotice (t : List Event) :
    shownNames (Event.additionalNotice :: t) = shownNames t := rfl

@[simp] theorem shownNames_eprints (l : List String) :
    shownNames (l.map Event.eprintNotFound) = [] := by
  induction l with
  | nil => rfl
  | cons a l ih => exact ih

@[simp] theorem shownNames_mapIf (c : Cache) (l : List String) (t : List Event) :
    shownNames
        ((l.map fun n =>
          if c.contains n then Event.showPkg n else Event.pkgNotFound n) ++ t)
      = l.filter (fun n => c.contains n) ++ shownNames t := by
  induction l with
  | nil => rfl
  | cons a l ih =>
    cases h : c.contains a with
    | true => simp [h, List.filter_cons, ih]
    | false => simp [h, List.filter_cons, ih]

@[simp] theorem shownNames_ite_notice (c : Prop) [Decidable c] (t : List Event) :
    shownNames ((if c then [Event.additionalNotice] else []) ++ t)
      = shownNames t := by
  split <;> simp

@[simp] theorem shownNames_ite_notice_nil (c : Prop) [Decidable c] :
    shownNames (if c then [Event.additionalNotice] else []) = [] := by
  split <;> simp

/-! ## Claim C2: name expansion before dispatch -/

/-- A concrete package used in the counterexamples. -/
def fooPkg : Pkg where
  name := "foo"
  shortname := "foo"
  installed := true
  is_installed := true
  is_upgradable := false
  marked_install := false
  marked_upgrade := false
  marked_downgrade := false
  architecture := "amd64"

/-- A concrete cache in which glob expansion maps the pattern list ["fo*"] to
the concrete name ["foo"] — the behaviour the engine's glob_filter has on a
cache holding the single package foo. -/
def fooCache : Cache where
  pkgs := [fooPkg]
  glob_filter := fun ns => if ns == ["fo*"] then ["foo"] else ns
  virtual_filter := fun ns => ns
  is_virtual_package := fun _ => false

/-- List flags with every filter off. -/
def listArgsOff : ListArgs where
  installed := false
  upgradable := false
  virtual := false

/-- Counterexample to claim C2 as stated: the list subcommand does not expand
the supplied names before dispatching on them.  On a cache whose glob
expansion maps ["fo*"] to ["foo"], listing ["fo*"] yields nothing, while the
dispatch the claim describes (on the expanded names) yields the package foo. -/
theorem list_does_not_expand_names :
    list_gen listArgsOff fooCache ["fo*"] = [] ∧
    list_gen_spec listArgsOff fooCache ["fo*"] = [fooPkg] ∧
    list_gen listArgsOff fooCache ["fo*"] ≠ list_gen_spec listArgsOff fooCache ["fo*"] := by
  decide

/-- Claim C2 as amended: install, remove/purge and show expand each supplied
name list through glob-pattern expansion and virtual-package resolution before
dispatching on the names — the install and remove transaction drivers hand
package_manager exactly the expanded names, and show shows exactly the
expanded names present in the cache — but the list subcommand matches the
supplied names verbatim against package shortnames, without expansion. -/
theorem dispatch_name_expansion_amended (cache : Cache) (envI : InstallEnv)
    (envR : RemoveEnv) (envS : ShowEnv) (rawI rawR rawS : List String)
    (av : Bool) (nsI nsR : List String) :
    (pmNamesOf (install envI cache rawI).2 = some nsI →
      nsI = expand_names cache (envI.arg_check rawI)) ∧
    (pmNamesOf (remove envR cache rawR).2 = some nsR →
      nsR = expand_names cache rawR) ∧
    shownNames (show_cmd envS cache rawS av).2
      = (expand_names cache rawS).filter (fun n => cache.contains n) := by
  refine ⟨?_, ?_, ?_⟩
  · intro h
    cases hroot : envI.rootOk with
    | false => simp [install, hroot] at h
    | true =>
      simp only [install, hroot, if_true] at h
      simp only [install_body] at h
      by_cases h1 : rawI.isEmpty
      · by_cases h2 : envI.fix_broken <;> simp [h1, h2] at h
      · simp only [h1, if_false, Bool.false_eq_true, ite_false] at h
        split at h
        · simp at h
        · split at h
          · split at h <;> · simp at h; exact h.symm
          · simp at h; exact h.symm
  · intro h
    cases hroot : envR.rootOk with
    | false => simp [remove, hroot] at h
    | true =>
      simp only [remove, hroot, if_true] at h
      simp only [remove_body] at h
      split at h <;> simp at h <;> exact h.symm
  · cases hnf : ((expand_names cache rawS).filter
      (fun n => !(cache.contains n))).isEmpty with
    | true => simp [show_cmd, hnf]
    | false => simp [show_cmd, hnf]

/-- A concrete install oracle: privileged, fix-broken off, arg_check the
identity, nothing local, nothing broken, package_manager succeeding. -/
def envI0 : InstallEnv where
  rootOk := true
  fix_broken := false
  arg_check := fun ns => ns
  not_exist := []
  broken := []
  ver_failed := false
  pmOk := true

/-- A concrete remove oracle of the same shape. -/
def envR0 : RemoveEnv where
  rootOk := true
  purge_cmd := false
  broken := []
  ver_failed := false
  pmOk := true

/-- A concrete show oracle: no additional records. -/
def envS0 : ShowEnv where
  records := fun _ => 0

theorem dispatch_name_expansion_witness :
    pmNamesOf (install envI0 fooCache ["foo"]).2 = some ["foo"] ∧
    (["foo"] : List String) = expand_names fooCache (envI0.arg_check ["foo"]) ∧
    (["foo"] : List String) = expand_names fooCache ["foo"] ∧
    shownNames (show_cmd envS0 fooCache ["foo"] false).2
      = (expand_names fooCache ["foo"]).filter (fun n => fooCache.contains n) :=
  ⟨by decide,
   (dispatch_name_expansion_amended fooCache envI0 envR0 envS0 ["foo"] ["foo"]
      ["foo"] false ["foo"] ["foo"]).1 (by decide),
   (dispatch_name_expansion_amended fooCache envI0 envR0 envS0 ["foo"] ["foo"]
      ["foo"] false ["foo"] ["foo"]).2.1 (by decide),
   (dispatch_name_expansion_amended fooCache envI0 envR0 envS0 ["foo"] ["foo"]
      ["foo"] false ["foo"] ["foo"]).2.2⟩

/-! ## Claim C4: invalid regex -/

/-- Claim C4: when the compilation of the search pattern fails (re.compile
raises re.error with a message and a position), the search command exits via
sys.exit with the formatted compile-failure message — exit code 1 — naming
the failure message and its position, and the trace holds only the cache
opening: no package of the cache is scanned. -/
theorem search_bad_regex (env : SearchEnv) (cache : Cache) (args : SearchArgs)
    (regex emsg : String) (pos : Nat)
    (h : env.compiles (searchPattern regex) = some (emsg, pos)) :
    search_cmd env cache regex args
      = (Outcome.exitErr (Msg.regexCompileFailed emsg pos),
         [Event.setupCache]) ∧
    ∀ s, Event.scanPkg s ∉ (search_cmd env cache regex args).2 := by
  have he : search_cmd env cache regex args
      = (Outcome.exitErr (Msg.regexCompileFailed emsg pos),
         [Event.setupCache]) := by
    unfold search_cmd
    rw [h]
  exact ⟨he, fun s => by rw [he]; simp⟩

/-- A search oracle whose compilation always fails at position 3. -/
def c4env : SearchEnv where
  compiles := fun _ => some ("missing parenthesis", 3)
  matchesPkg := fun _ _ => false
  arches := []

/-- Search flags with every filter off and all architectures admitted. -/
def searchArgsOff : SearchArgs where
  installed := false
  upgradable := false
  virtual := false
  all_arches := true

theorem search_bad_regex_witness :
    search_cmd c4env fooCache "(" searchArgsOff
      = (Outcome.exitErr (Msg.regexCompileFailed "missing parenthesis" 3),
         [Event.setupCache]) ∧
    Event.scanPkg "foo" ∉ (search_cmd c4env fooCache "(" searchArgsOff).2 :=
  ⟨(search_bad_regex c4env fooCache searchArgsOff "(" "missing parenthesis" 3
      rfl).1,
   (search_bad_regex c4env fooCache searchArgsOff "(" "missing parenthesis" 3
      rfl).2 "foo"⟩

/-! ## Claim C8: the literal argument "*" -/

/-- Claim C8: the literal search argument "*" is rewritten to ".*" before
compilation; hence, provided ".*" compiles and matches every string (as it
does for Python's re), searching for "*" collects every gate-passing package
of the cache and never exits with a regex-compilation error. -/
theorem search_star (env : SearchEnv) (cache : Cache) (args : SearchArgs)
    (hc : env.compiles ".*" = none)
    (hm : ∀ p, env.matchesPkg ".*" p = true) :
    searchPattern "*" = ".*" ∧
    search_found env cache "*" args
      = cache.pkgs.filter (search_gate env args cache) ∧
    ∀ m pos, (search_cmd env cache "*" args).1
      ≠ Outcome.exitErr (Msg.regexCompileFailed m pos) := by
  have hp : searchPattern "*" = ".*" := rfl
  refine ⟨hp, ?_, ?_⟩
  · unfold search_found
    rw [hp]
    exact List.filter_eq_self.mpr (fun a _ => hm a)
  · intro m pos
    unfold search_cmd
    rw [hp, hc]
    split
    · rename_i heq
      exact absurd heq (by simp)
    · split <;> simp

/-- A search oracle under which every pattern compiles and matches. -/
def c8env : SearchEnv where
  compiles := fun _ => none
  matchesPkg := fun _ _ => true
  arches := ["amd64"]

theorem search_star_witness :
    searchPattern "*" = ".*" ∧
    search_found c8env fooCache "*" searchArgsOff
      = fooCache.pkgs.filter (search_gate c8env searchArgsOff fooCache) ∧
    (search_cmd c8env fooCache "*" searchArgsOff).1
      ≠ Outcome.exitErr (Msg.regexCompileFailed "x" 0) :=
  ⟨(search_star c8env fooCache searchArgsOff rfl (fun _ => rfl)).1,
   (search_star c8env fooCache searchArgsOff rfl (fun _ => rfl)).2.1,
   (search_star c8env fooCache searchArgsOff rfl (fun _ => rfl)).2.2 "x" 0⟩

/-! ## Claim C5: nonexistent names -/

/-- Claim C5: for show and install, a package name that — after glob and
virtual expansion — does not exist in the cache makes the command report a
not-found error naming that package and exit with code 1 (for install via
pkg_error with terminate, modelled from the spec; for show via the stderr
loop and sys.exit(1) of nala.py lines 378-381). -/
theorem not_found_exits_one (envS : ShowEnv) (envI : InstallEnv)
    (cache : Cache) (rawS rawI : List String) (av : Bool) (n m : String) :
    (n ∈ expand_names cache rawS → cache.contains n = false →
      (show_cmd envS cache rawS av).1 = Outcome.exitCode 1 ∧
      Event.eprintNotFound n ∈ (show_cmd envS cache rawS av).2) ∧
    (envI.rootOk = true → rawI.isEmpty = false →
      m ∈ expand_names cache (envI.arg_check rawI) →
      cache.contains m = false →
      (install envI cache rawI).1 = Outcome.exitCode 1 ∧
      Event.eprintNotFound m ∈ (install envI cache rawI).2) := by
  constructor
  · intro hn hc
    have hmem : n ∈ (expand_names cache rawS).filter
        (fun x => !(cache.contains x)) :=
      List.mem_filter.mpr ⟨hn, by simp [hc]⟩
    have hne : ((expand_names cache rawS).filter
        (fun x => !(cache.contains x))).isEmpty = false := by
      cases hfe : (expand_names cache rawS).filter
          (fun x => !(cache.contains x)) with
      | nil => rw [hfe] at hmem; cases hmem
      | cons a t => rfl
    constructor
    · simp [show_cmd, hne]
    · simp only [show_cmd, hne, Bool.false_eq_true, ite_false]
      simp only [List.mem_append, List.mem_map]
      exact Or.inr ⟨n, hmem, rfl⟩
  · intro hroot hraw hm hc
    have hmemL : m ∈ (expand_names cache (envI.arg_check rawI)).filter
        (fun x => !(cache.contains x)) :=
      List.mem_filter.mpr ⟨hm, by simp [hc]⟩
    have hmem : m ∈ (expand_names cache (envI.arg_check rawI)).filter
        (fun x => !(cache.contains x)) ++ envI.not_exist :=
      List.mem_append.mpr (Or.inl hmemL)
    have hne : ((expand_names cache (envI.arg_check rawI)).filter
        (fun x => !(cache.contains x)) ++ envI.not_exist).isEmpty = false := by
      cases hfe : (expand_names cache (envI.arg_check rawI)).filter
          (fun x => !(cache.contains x)) ++ envI.not_exist with
      | nil => rw [hfe] at hmem; cases hmem
      | cons a t => rfl
    constructor
    · simp [install, install_body, hroot, hraw, hne]
    · simp only [install, install_body, hroot, hraw, hne, if_true,
        Bool.false_eq_true, ite_false, Bool.not_false, Bool.true_or, ite_true]
      simp only [List.mem_cons, List.mem_append, List.mem_map]
      exact Or.inr (Or.inr ⟨m, Or.inl hmemL, rfl⟩)

theorem not_found_exits_one_witness :
    ((show_cmd envS0 fooCache ["ghost"] false).1 = Outcome.exitCode 1 ∧
     Event.eprintNotFound "ghost" ∈ (show_cmd envS0 fooCache ["ghost"] false).2) ∧
    ((install envI0 fooCache ["ghost"]).1 = Outcome.exitCode 1 ∧
     Event.eprintNotFound "ghost" ∈ (install envI0 fooCache ["ghost"]).2) :=
  ⟨(not_found_exits_one envS0 envI0 fooCache ["ghost"] ["ghost"] false "ghost"
      "ghost").1 (by decide) (by decide),
   (not_found_exits_one envS0 envI0 fooCache ["ghost"] ["ghost"] false "ghost"
      "ghost").2 rfl rfl (by decide) (by decide)⟩

/-! ## Claim C6: post-mark verification in install -/

/-- Claim C6: after package_manager runs in the install driver, the requested
packages are verified to be marked install, upgrade or downgrade: whenever the
invocation reaches get_changes (the commit), every requested package passed
that mark check; and whenever some requested package is left unmarked and no
broken-package explanation applies (check_broken reported no broken package),
the unmarked-package error is surfaced — exit code 1, modelled from the spec —
and the invocation never reaches get_changes. -/
theorem install_unmarked_check (env : InstallEnv) (cache : Cache)
    (raw : List String) (p : Pkg)
    (hroot : env.rootOk = true) (hraw : raw.isEmpty = false)
    (hnf : ((expand_names cache (env.arg_check raw)).filter
        (fun n => !(cache.contains n)) ++ env.not_exist).isEmpty = true)
    (hvf : env.ver_failed = false) :
    (Event.getChanges ∈ (install env cache raw).2 →
      ((expand_names cache (env.arg_check raw)).filterMap cache.lookup).all
        Pkg.okMarked = true) ∧
    (p ∈ (expand_names cache (env.arg_check raw)).filterMap cache.lookup →
      p.okMarked = false → env.broken.isEmpty = true →
      (install env cache raw).1 = Outcome.exitCode 1 ∧
      Event.unmarkedErrorReport ∈ (install env cache raw).2 ∧
      Event.getChanges ∉ (install env cache raw).2) := by
  constructor
  · intro hgc
    cases hall : ((expand_names cache (env.arg_check raw)).filterMap
        cache.lookup).all Pkg.okMarked with
    | true => rfl
    | false =>
      exfalso
      simp only [install, install_body, hroot, hraw, hnf, hvf, if_true,
        Bool.false_eq_true, ite_false, Bool.not_true, Bool.or_false,
        Bool.false_or, hall, Bool.not_false, Bool.or_true, ite_true] at hgc
      cases hbe : env.broken.isEmpty <;> simp [hbe] at hgc
  · intro hp hm hb
    have hall : ((expand_names cache (env.arg_check raw)).filterMap
        cache.lookup).all Pkg.okMarked = false := by
      cases hA : ((expand_names cache (env.arg_check raw)).filterMap
          cache.lookup).all Pkg.okMarked with
      | false => rfl
      | true => exact absurd (List.all_eq_true.mp hA p hp) (by simp [hm])
    refine ⟨?_, ?_, ?_⟩ <;>
      simp [install, install_body, hroot, hraw, hnf, hvf, hall, hb]

/-- An install oracle like `envI0` but whose package_manager leaves the
requested packages unmarked (the cache's mark fields are all false). -/
def c6env : InstallEnv where
  rootOk := true
  fix_broken := false
  arg_check := fun ns => ns
  not_exist := []
  broken := []
  ver_failed := false
  pmOk := true

theorem install_unmarked_check_witness :
    (install c6env fooCache ["foo"]).1 = Outcome.exitCode 1 ∧
    Event.unmarkedErrorReport ∈ (install c6env fooCache ["foo"]).2 ∧
    Event.getChanges ∉ (install c6env fooCache ["foo"]).2 :=
  (install_unmarked_check c6env fooCache ["foo"] fooPkg rfl rfl (by decide)
    rfl).2 (by decide) rfl rfl

/-! ## Claim C10: install with no package names -/

/-- Claim C10: an install invocation with no package-name arguments runs the
fix-broken flow (_fix_broken: open the cache, fix broken packages, check
state, compute the changes) and returns without a missing-packages error when
the fix-broken option is enabled; with the option disabled it fails with the
missing-packages-to-install usage error before opening the cache (the trace
holds no cache opening). -/
theorem install_no_names (env : InstallEnv) (cache : Cache)
    (hroot : env.rootOk = true) :
    (env.fix_broken = true →
      install env cache []
        = (Outcome.ok,
           [Event.sudoCheck, Event.setupCache, Event.printMsg Msg.fixingBroken,
            Event.fixBroken, Event.checkState, Event.getChanges])) ∧
    (env.fix_broken = false →
      install env cache []
        = (Outcome.usageFail Msg.missingPackagesToInstall,
           [Event.sudoCheck]) ∧
      Event.setupCache ∉ (install env cache []).2) := by
  constructor
  · intro hfb
    simp [install, install_body, hroot, hfb]
  · intro hfb
    constructor
    · simp [install, install_body, hroot, hfb]
    · simp [install, install_body, hroot, hfb]

/-- An install oracle with fix-broken enabled. -/
def c10env : InstallEnv where
  rootOk := true
  fix_broken := true
  arg_check := fun ns => ns
  not_exist := []
  broken := []
  ver_failed := false
  pmOk := true

theorem install_no_names_witness :
    install c10env fooCache []
      = (Outcome.ok,
         [Event.sudoCheck, Event.setupCache, Event.printMsg Msg.fixingBroken,
          Event.fixBroken, Event.checkState, Event.getChanges]) ∧
    install envI0 fooCache []
      = (Outcome.usageFail Msg.missingPackagesToInstall, [Event.sudoCheck]) :=
  ⟨(install_no_names c10env fooCache rfl).1 rfl,
   ((install_no_names envI0 fooCache rfl).2 rfl).1⟩

/-! ## Claim C7: privilege check first -/

/-- Claim C7: for each state-modifying subcommand (update, upgrade, install,
remove/purge, autoremove/autopurge, clean), sudo_check is the first action of
every invocation, so when the privilege check fails (sudo_check is modelled
from the spec: a missing-sudo input-validation error is reported immediately
with a non-zero exit) the command exits with the missing-sudo error — exit
code 1 — and the trace holds no engine-cache opening and no filesystem
removal. -/
theorem sudo_check_first (envU : UpgradeEnv) (fuel : Nat)
    (exclude : List String) (envI : InstallEnv) (envR : RemoveEnv)
    (cache : Cache) (rawI rawR : List String) (purgeFlag lists fetch : Bool)
    (hI : envI.rootOk = false) (hR : envR.rootOk = false) :
    update false = (Outcome.exitErr Msg.missingSudo, [Event.sudoCheck]) ∧
    upgrade false envU fuel exclude
      = (Outcome.exitErr Msg.missingSudo, [Event.sudoCheck]) ∧
    install envI cache rawI
      = (Outcome.exitErr Msg.missingSudo, [Event.sudoCheck]) ∧
    remove envR cache rawR
      = (Outcome.exitErr Msg.missingSudo, [Event.sudoCheck]) ∧
    autoremove false purgeFlag
      = (Outcome.exitErr Msg.missingSudo, [Event.sudoCheck]) ∧
    clean false lists fetch
      = (Outcome.exitErr Msg.missingSudo, [Event.sudoCheck]) ∧
    (∀ rootOk, (update rootOk).2.head? = some Event.sudoCheck) ∧
    (∀ rootOk, (upgrade rootOk envU fuel exclude).2.head?
      = some Event.sudoCheck) ∧
    (∀ envI2 : InstallEnv, (install envI2 cache rawI).2.head?
      = some Event.sudoCheck) ∧
    (∀ envR2 : RemoveEnv, (remove envR2 cache rawR).2.head?
      = some Event.sudoCheck) ∧
    (∀ rootOk, (autoremove rootOk purgeFlag).2.head?
      = some Event.sudoCheck) ∧
    (∀ rootOk, (clean rootOk lists fetch).2.head? = some Event.sudoCheck) := by
  refine ⟨rfl, rfl, by simp [install, hI], by simp [remove, hR], rfl, rfl,
    ?_, ?_, ?_, ?_, ?_, ?_⟩
  · intro rootOk; cases rootOk <;> rfl
  · intro rootOk; cases rootOk <;> rfl
  · intro envI2
    cases h2 : envI2.rootOk <;> simp [install, h2]
  · intro envR2
    cases h2 : envR2.rootOk <;> simp [remove, h2]
  · intro rootOk; cases rootOk <;> rfl
  · intro rootOk
    cases rootOk <;> cases lists <;> cases fetch <;> rfl

/-- An install oracle with the privilege check failing. -/
def c7envI : InstallEnv where
  rootOk := false
  fix_broken := false
  arg_check := fun ns => ns
  not_exist := []
  broken := []
  ver_failed := false
  pmOk := true

/-- A remove oracle with the privilege check failing. -/
def c7envR : RemoveEnv where
  rootOk := false
  purge_cmd := false
  broken := []
  ver_failed := false
  pmOk := true

theorem sudo_check_first_witness :
    install c7envI fooCache ["foo"]
      = (Outcome.exitErr Msg.missingSudo, [Event.sudoCheck]) ∧
    remove c7envR fooCache ["foo"]
      = (Outcome.exitErr Msg.missingSudo, [Event.sudoCheck]) ∧
    (update true).2.head? = some Event.sudoCheck ∧
    (clean true true false).2.head? = some Event.sudoCheck :=
  ⟨(sudo_check_first c1wenv 1 [] c7envI c7envR fooCache ["foo"] ["foo"]
      false true false rfl rfl).2.2.1,
   (sudo_check_first c1wenv 1 [] c7envI c7envR fooCache ["foo"] ["foo"]
      false true false rfl rfl).2.2.2.1,
   (sudo_check_first c1wenv 1 [] c7envI c7envR fooCache ["foo"] ["foo"]
      false true false rfl rfl).2.2.2.2.2.2.1 true,
   (sudo_check_first c1wenv 1 [] c7envI c7envR fooCache ["foo"] ["foo"]
      false true false rfl rfl).2.2.2.2.2.2.2.2.2.2.2 true⟩

end NalaSpec
